import Mathlib

/-!
Verification development for the elizaos multichain plugin.

The development shallowly embeds the plugin's three source files:
an aggregated two-chain build (wallet provider, amount parsing, the
BTC/ETH transfer dispatcher and the MULTI_CHAIN_TRANSFER_TOKEN action
handler), and a single-chain BTC variant (wallet provider, SEND_BTC
action handler) together with its config/parsing utilities.

JavaScript numbers are IEEE-754 binary64 values; every finite double
is an exact rational, so the numeric layer models doubles by the
rationals they denote and models the two conversions the source
performs: string/decimal to double via correct rounding
(round-to-nearest-even), and double to decimal via the shortest
round-tripping representation of the ECMAScript Number-to-string
algorithm, which is also what bignumber.js stores when it is handed a
JavaScript number, since it stringifies the number first.  The model
covers normal, finite, moderate-magnitude doubles, the range every
concrete value in this development inhabits.

Rationals are carried as explicit numerator/denominator pairs (Frac)
with gcd-free arithmetic so that every function here evaluates inside
the kernel; Frac.toRat interprets a pair as the rational it denotes.
-/

set_option autoImplicit false

/-- An unreduced fraction: numerator and positive denominator.  All
constructors below keep the denominator positive; equality of denoted
values is Frac.beq (cross multiplication), not structural equality. -/
structure Frac where
  num : ℤ
  den : ℤ
  deriving DecidableEq

/-- The rational a fraction denotes. -/
def Frac.toRat (a : Frac) : ℚ := (a.num : ℚ) / (a.den : ℚ)

/-- Embed an integer. -/
def Frac.ofInt (n : ℤ) : Frac := ⟨n, 1⟩

/-- Product. -/
def Frac.mul (a b : Frac) : Frac := ⟨a.num * b.num, a.den * b.den⟩

/-- Quotient (the divisor is nonzero at every use site). -/
def Frac.div (a b : Frac) : Frac :=
  if 0 ≤ b.num then ⟨a.num * b.den, a.den * b.num⟩
  else ⟨-(a.num * b.den), a.den * -b.num⟩

/-- Sum. -/
def Frac.add (a b : Frac) : Frac := ⟨a.num * b.den + b.num * a.den, a.den * b.den⟩

/-- Difference. -/
def Frac.sub (a b : Frac) : Frac := ⟨a.num * b.den - b.num * a.den, a.den * b.den⟩

/-- Negation. -/
def Frac.neg (a : Frac) : Frac := ⟨-a.num, a.den⟩

/-- Absolute value. -/
def Frac.abs (a : Frac) : Frac := ⟨|a.num|, a.den⟩

/-- Value-level strict order. -/
def Frac.lt (a b : Frac) : Bool := decide (a.num * b.den < b.num * a.den)

/-- Value-level equality. -/
def Frac.beq (a b : Frac) : Bool := decide (a.num * b.den = b.num * a.den)

/-- Floor of the denoted rational. -/
def Frac.floor (a : Frac) : ℤ := Int.fdiv a.num a.den

/-- Ceiling of the denoted rational. -/
def Frac.ceil (a : Frac) : ℤ := -Int.fdiv (-a.num) a.den

/-- Fuel-driven floor logarithm on naturals: largest e with b^e <= n
(0 when n < b or fuel runs out).  Structural recursion so that the
kernel can evaluate it on concrete inputs; the fuel used below is far
above the magnitude of any double exponent involved. -/
def natLogFuel (b : ℕ) : ℕ → ℕ → ℕ
  | 0, _ => 0
  | fuel + 1, n => if n < b then 0 else natLogFuel b fuel (n / b) + 1

/-- Fuel-driven ceiling logarithm on naturals: smallest e with n <= b^e. -/
def natClogFuel (b : ℕ) : ℕ → ℕ → ℕ
  | 0, _ => 0
  | fuel + 1, n => if n ≤ 1 then 0 else natClogFuel b fuel ((n + b - 1) / b) + 1

/-- b^e as a fraction, for a positive integer base and an integer
exponent. -/
def qpow (b : ℤ) (e : ℤ) : Frac :=
  if 0 ≤ e then ⟨b ^ e.toNat, 1⟩ else ⟨1, b ^ (-e).toNat⟩

/-- Floor logarithm base b of a positive fraction. -/
def ratLogFloor (b : ℕ) (q : Frac) : ℤ :=
  if q.den ≤ q.num then (natLogFuel b 4096 q.floor.toNat : ℤ)
  else -(natClogFuel b 4096 (Frac.ceil ⟨q.den, q.num⟩).toNat : ℤ)

/-- Round a fraction to the nearest integer, ties to the even integer
(IEEE-754 round-to-nearest-even). -/
def roundHalfEven (q : Frac) : ℤ :=
  let f := q.floor
  let r := q.sub (Frac.ofInt f)
  if r.lt ⟨1, 2⟩ then f
  else if (⟨1, 2⟩ : Frac).lt r then f + 1
  else if f % 2 = 0 then f else f + 1

/-- The IEEE-754 binary64 value nearest to a rational (normal range,
round-to-nearest-even): the exact value denoted by the double that a
JavaScript string-to-number or decimal-to-number conversion of the
input produces.  The significand is the input scaled into
[2^52, 2^53) and rounded half-to-even. -/
def roundDouble (q : Frac) : Frac :=
  if q.num = 0 then ⟨0, 1⟩
  else
    let a := q.abs
    let ulpExp : ℤ := ratLogFloor 2 a - 52
    let m := roundHalfEven (a.mul (qpow 2 (-ulpExp)))
    let v := (Frac.ofInt m).mul (qpow 2 ulpExp)
    if q.num < 0 then v.neg else v

/-- A decimal significand representation s with k digits denoting the
value s * 10^(n - k), as in the ECMAScript Number-to-string algorithm. -/
structure DecimalRepr where
  s : ℤ
  n : ℤ
  k : ℕ
  deriving DecidableEq

/-- For a positive double d and digit count k, the candidate k-digit
significands whose denoted decimal value rounds back to d, selecting
the closest (ties to even significand) as ECMAScript prescribes. -/
def tryDigitCount (d : Frac) (n : ℤ) (k : ℕ) : Option ℤ :=
  let scale := qpow 10 (n - (k : ℤ))
  let t := d.div scale
  let lo := t.floor
  let cands : List ℤ :=
    List.filter (fun s => decide (0 < s) && Frac.beq (roundDouble ((Frac.ofInt s).mul scale)) d)
      [lo, lo + 1]
  match cands with
  | [] => none
  | [s] => some s
  | s1 :: s2 :: _ =>
    let v1 := (((Frac.ofInt s1).mul scale).sub d).abs
    let v2 := (((Frac.ofInt s2).mul scale).sub d).abs
    if v1.lt v2 then some s1
    else if v2.lt v1 then some s2
    else if s1 % 2 = 0 then some s1 else some s2

/-- First digit count (from the given list) admitting a round-tripping
significand for the positive double d. -/
def shortestDecimalFrom (d : Frac) (n : ℤ) : List ℕ → Option DecimalRepr
  | [] => none
  | k :: ks =>
    match tryDigitCount d n k with
    | some s => some ⟨s, n, k⟩
    | none => shortestDecimalFrom d n ks

/-- Shortest decimal representation of a positive double (at most 17
significant digits suffice for binary64). -/
def shortestDecimal (d : Frac) : Option DecimalRepr :=
  shortestDecimalFrom d (ratLogFloor 10 d + 1) (List.range' 1 17)

/-- The exact decimal value of the ECMAScript string representation of
a double: the value of the shortest decimal that rounds back to it.
This is the value bignumber.js stores when constructed from a
JavaScript number, since it stringifies the number first. -/
def jsShortestRepr (d : Frac) : Frac :=
  if d.num = 0 then ⟨0, 1⟩
  else if d.num < 0 then
    Frac.neg (match shortestDecimal d.abs with
              | some r => (Frac.ofInt r.s).mul (qpow 10 (r.n - (r.k : ℤ)))
              | none => d.abs)
  else
    match shortestDecimal d with
    | some r => (Frac.ofInt r.s).mul (qpow 10 (r.n - (r.k : ℤ)))
    | none => d

/-- Digits-to-string rendering of the ECMAScript Number-to-string
algorithm for a positive double given its shortest decimal form. -/
def renderDecimal (r : DecimalRepr) : String :=
  let ds := r.s.natAbs.repr
  let zeros : ℕ → String := fun m => String.mk (List.replicate m '0')
  if (r.k : ℤ) ≤ r.n ∧ r.n ≤ 21 then ds ++ zeros (r.n - (r.k : ℤ)).toNat
  else if 0 < r.n ∧ r.n ≤ 21 then ds.take r.n.toNat ++ "." ++ ds.drop r.n.toNat
  else if -6 < r.n ∧ r.n ≤ 0 then "0." ++ zeros (-r.n).toNat ++ ds
  else
    let e := r.n - 1
    let expPart := (if 0 ≤ e then "e+" else "e-") ++ e.natAbs.repr
    if r.k = 1 then ds ++ expPart
    else ds.take 1 ++ "." ++ ds.drop 1 ++ expPart

/-- ECMAScript String(number) for a finite double. -/
def jsNumToString (q : Frac) : String :=
  if q.num = 0 then "0"
  else if q.num < 0 then
    "-" ++ (match shortestDecimal q.abs with
            | some r => renderDecimal r
            | none => "")
  else
    match shortestDecimal q with
    | some r => renderDecimal r
    | none => ""

/-- ECMAScript Number.prototype.toFixed with no argument (0 fraction
digits, magnitude below 10^21): the integer closest to the double,
ties toward the larger integer. -/
def jsToFixed0 (q : Frac) : ℤ := (q.add ⟨1, 2⟩).floor

/-- Accumulate the value of a digit run (none on a non-digit). -/
def digitsToNatAux : ℕ → List Char → Option ℕ
  | acc, [] => some acc
  | acc, c :: cs => if c.isDigit then digitsToNatAux (acc * 10 + (c.toNat - 48)) cs else none

/-- Value of a nonempty digit run. -/
def digitsToNat : List Char → Option ℕ
  | [] => none
  | cs => digitsToNatAux 0 cs

/-- Exact value of a decimal string literal as the JavaScript
Number(string) grammar reads it: optional sign, integer digits,
optional fraction, optional decimal exponent; none models NaN for
non-numeric input. -/
def decimalValue (s : String) : Option Frac :=
  let cs := s.toList
  let mantissa : List Char → Option Frac := fun l =>
    let intPart := l.takeWhile Char.isDigit
    let rest := l.dropWhile Char.isDigit
    match rest with
    | [] => (digitsToNat intPart).map (fun n => Frac.ofInt (n : ℤ))
    | '.' :: fracs =>
      if fracs.all Char.isDigit ∧ (intPart ≠ [] ∨ fracs ≠ []) then
        match digitsToNatAux 0 (intPart ++ fracs) with
        | some n => some ⟨(n : ℤ), (10 : ℤ) ^ fracs.length⟩
        | none => none
      else none
    | _ => none
  let withExp : List Char → Option Frac := fun l =>
    match l.span (fun c => c ≠ 'e' ∧ c ≠ 'E') with
    | (m, []) => mantissa m
    | (m, _ :: expPart) =>
      let expVal : Option ℤ :=
        match expPart with
        | '-' :: ds => (digitsToNat ds).map (fun n => -(n : ℤ))
        | '+' :: ds => (digitsToNat ds).map (fun n => (n : ℤ))
        | ds => (digitsToNat ds).map (fun n => (n : ℤ))
      match mantissa m, expVal with
      | some mv, some e => some (mv.mul (qpow 10 e))
      | _, _ => none
  match cs with
  | '-' :: rest =>
    match rest with
    | [] => none
    | _ => (withExp rest).map Frac.neg
  | '+' :: rest =>
    match rest with
    | [] => none
    | _ => withExp rest
  | _ => withExp cs

/-- JavaScript Number(string): the double nearest the string's exact
decimal value (none models NaN). -/
def jsStringToNumber (s : String) : Option Frac :=
  (decimalValue s).map roundDouble

/-- JavaScript falsiness of a possibly-absent string setting: undefined
and the empty string are falsy. -/
def jsFalsyStr : Option String → Bool
  | none => true
  | some s => s == ""

/-- JavaScript truthiness of a possibly-absent string: present and
nonempty. -/
def strTruthy : Option String → Bool
  | none => false
  | some v => !(v == "")

/-- JavaScript string interpolation of an Error value: the name
"Error" followed by the message. -/
def jsErrorToString (msg : String) : String := "Error: " ++ msg

/-- A JavaScript value as far as the plugin's typeof-based checks
observe it. -/
inductive JsVal where
  | str (s : String)
  | num (q : Frac)
  | boolv (b : Bool)
  | nullv
  | undef
  deriving DecidableEq

/-- typeof v === "string". -/
def isStringVal : JsVal → Bool
  | .str _ => true
  | _ => false

/-- typeof v === "number". -/
def isNumberVal : JsVal → Bool
  | .num _ => true
  | _ => false

/-- JavaScript String(v) / v.toString() on the modelled values. -/
def jsValToString : JsVal → String
  | .str s => s
  | .num q => jsNumToString q
  | .boolv true => "true"
  | .boolv false => "false"
  | .nullv => "null"
  | .undef => "undefined"

/-- Decidable equality for Except, so outcomes containing thrown
errors can be evaluated on concrete inputs. -/
instance {α β : Type} [DecidableEq α] [DecidableEq β] : DecidableEq (Except α β) := fun a b =>
  match a, b with
  | .error x, .error y =>
    if h : x = y then .isTrue (by rw [h]) else .isFalse (by intro hc; cases hc; exact h rfl)
  | .ok x, .ok y =>
    if h : x = y then .isTrue (by rw [h]) else .isFalse (by intro hc; cases hc; exact h rfl)
  | .error _, .ok _ => .isFalse (by intro hc; cases hc)
  | .ok _, .error _ => .isFalse (by intro hc; cases hc)

/-- The structured result of the remote sign-and-send primitive. -/
structure SignResponse where
  success : Bool
  transactionHash : String
  errorMessage : String
  deriving DecidableEq

/-- One callback invocation: the human-readable text plus the fields of
the structured content payload the handler attaches. -/
structure CallbackMsg where
  text : String
  contentError : Option String
  contentSuccess : Option Bool
  contentSignature : Option String
  contentAmount : Option JsVal
  contentRecipient : Option JsVal
  deriving DecidableEq

/-- Result of one dispatcher run: the returned transaction hash or the
thrown error message, plus how many external derivation calls and
sign-and-send calls were made. -/
structure TransferOutcome where
  result : Except String String
  deriveCalls : ℕ
  signCalls : ℕ
  deriving DecidableEq

/-- Result of one action-handler run: Except.error means an exception
escaped the handler; the Bool is the handler's return value.  The
callback list records every callback invocation (empty when no
callback was supplied), and the counters record dispatcher /
derivation / sign-and-send activity. -/
structure HandlerOutcome where
  result : Except String Bool
  callbacks : List CallbackMsg
  dispatchCalls : ℕ
  deriveCalls : ℕ
  signCalls : ℕ
  deriving DecidableEq

/-- A node-cache instance holding at most the one key the provider
uses: the cached value together with its expiry instant in
milliseconds (stdTTL 300 seconds). -/
structure CacheState (V : Type) where
  cache : Option (V × ℤ)
  deriving DecidableEq

/-- node-cache get: a stored entry is returned while its expiry has
not passed. -/
def cacheGet {V : Type} (s : CacheState V) (now : ℤ) : Option V :=
  match s.cache with
  | some (v, t) => if now ≤ t then some v else none
  | none => none

/-- Result of one provider run: the returned value (none models null),
the provider's cache state afterwards, the number of external
derivation calls made, and whether the run returned via the cache-hit
branch. -/
structure ProviderOutcome (V : Type) where
  result : Option V
  state : CacheState V
  deriveCalls : ℕ
  cacheHit : Bool
  deriving DecidableEq

namespace MC

/-!
Embedding of the aggregated two-chain build: chain-signatures config
tables, the config resolvers, the BigNumber-based amount parsing, the
derived-address provider with its node-cache, the transfer content
check, the BTC/ETH transfer routines, the symbol dispatcher and the
MULTI_CHAIN_TRANSFER_TOKEN action handler.  External effects (the
settings lookup, the two derivation primitives, the two sign-and-send
primitives, state composition and the generative-object call) are the
fields of RuntimeEnv; an Except.error field value models that call
throwing or rejecting with the given message.
-/

/-- One entry of the chain-signatures config table: the NEAR network
id and the signer contract id. -/
structure SignerCfg where
  nearNetworkId : String
  contract : String
  deriving DecidableEq

/-- The chain-signatures config table, indexed by the raw NEAR network
string; indexing with any other string yields undefined. -/
def CHAIN_SIGNATURES_CONFIG : String → Option SignerCfg := fun k =>
  if k = "mainnet" then some ⟨"mainnet", "v1.signer"⟩
  else if k = "testnet" then some ⟨"testnet", "v1.signer-prod.testnet"⟩
  else none

/-- The fixed derivation-path table. -/
def CHAIN_SIGNATURES_DERIVATION_PATHS : String → Option String := fun k =>
  if k = "BTC" then some "bitcoin-1"
  else if k = "EVM" then some "evm-1"
  else none

/-- getDerivationPath from the source: a table lookup. -/
def getDerivationPath (chainType : String) : Option String :=
  CHAIN_SIGNATURES_DERIVATION_PATHS chainType

/-- The two fixed mempool endpoints. -/
structure MempoolUrls where
  mainnet : String
  testnet : String
  deriving DecidableEq

/-- MEMPOOL_API_URL from the source. -/
def MEMPOOL_API_URL : MempoolUrls :=
  ⟨"https://mempool.space/api", "https://mempool.space/testnet4/api"⟩

/-- The object getBitcoinConfig builds.  Spreading an undefined table
entry leaves nearNetworkId and contract absent, hence the Option. -/
structure BitcoinConfig where
  nearNetworkId : Option String
  contract : Option String
  network : String
  providerUrl : String
  deriving DecidableEq

/-- The object getEvmConfig builds. -/
structure EvmConfig where
  nearNetworkId : Option String
  contract : Option String
  providerUrl : String
  deriving DecidableEq

/-- getBitcoinConfig from the source: nullish-coalescing defaults for
NEAR_NETWORK, BTC_PROVIDER_URL and BTC_NETWORK, then a spread of the
chain-signatures table entry for the raw NEAR_NETWORK string. -/
def getBitcoinConfig (settings : String → Option String) : BitcoinConfig :=
  let nearNetworkId := (settings "NEAR_NETWORK").getD "testnet"
  let providerUrl := (settings "BTC_PROVIDER_URL").getD
    (if nearNetworkId = "mainnet" then MEMPOOL_API_URL.mainnet else MEMPOOL_API_URL.testnet)
  let network := (settings "BTC_NETWORK").getD "testnet"
  match CHAIN_SIGNATURES_CONFIG nearNetworkId with
  | some cfg => ⟨some cfg.nearNetworkId, some cfg.contract, network, providerUrl⟩
  | none => ⟨none, none, network, providerUrl⟩

/-- getEvmConfig from the source. -/
def getEvmConfig (settings : String → Option String) : EvmConfig :=
  let nearNetworkId := (settings "NEAR_NETWORK").getD "testnet"
  let providerUrl := (settings "EVM_PROVIDER_URL").getD "https://sepolia.drpc.org"
  match CHAIN_SIGNATURES_CONFIG nearNetworkId with
  | some cfg => ⟨some cfg.nearNetworkId, some cfg.contract, providerUrl⟩
  | none => ⟨none, none, providerUrl⟩

/-- parseAmount from the source: BigNumber(n).shiftedBy(decimals).
The argument is always a JavaScript number at the call sites, and
bignumber.js converts a number via its string representation, so the
stored decimal is the shortest round-tripping decimal of n; shiftedBy
then moves the decimal point exactly. -/
def parseAmount (n : Frac) (decimals : ℤ) : Frac :=
  (jsShortestRepr n).mul (qpow 10 decimals)

/-- parseBTC from the source: parseAmount(n, 8).toNumber(), a rounding
back to binary64. -/
def parseBTC (n : Frac) : Frac := roundDouble (parseAmount n 8)

/-- parseETH from the source: parseAmount(n, 18).toNumber(), a rounding
back to binary64. -/
def parseETH (n : Frac) : Frac := roundDouble (parseAmount n 18)

/-- The integer wire value transferEth places in the sign-and-send
payload for a human-entered amount string:
parseETH(Number(amount)).toFixed() (none when the string is not
numeric). -/
def evmTransferWireAmount (amount : String) : Option ℤ :=
  (jsStringToNumber amount).map (fun n => jsToFixed0 (parseETH n))

/-- The integer wire value transferBTC places in the sign-and-send
payload: parseBTC(Number(amount)).toFixed(). -/
def btcTransferWireAmount (amount : String) : Option ℤ :=
  (jsStringToNumber amount).map (fun n => jsToFixed0 (parseBTC n))

/-- The exact base-unit conversion the specification describes: the
human-entered decimal amount times 10^decimals, with no rounding
anywhere. -/
def specBaseUnitAmount (amount : String) (decimals : ℕ) : Option ℚ :=
  (decimalValue amount).map (fun q => q.toRat * 10 ^ decimals)

/-- The object the generative extraction call delivers, as the
typeof-based manual check observes it: the three properties the
transfer template asks for, each an arbitrary JavaScript value
(an absent property reads as undefined). -/
structure ContentObj where
  recipient : JsVal
  amount : JsVal
  symbol : JsVal
  deriving DecidableEq

/-- isTransferContent from the two-chain source: recipient must be a
string, amount a string or a number, and symbol a string.  No check
that symbol is one of the supported enum values is performed here. -/
def isTransferContent (content : ContentObj) : Bool :=
  isStringVal content.recipient &&
    (isStringVal content.amount || isNumberVal content.amount) &&
    isStringVal content.symbol

/-- The runtime surface the plugin consumes, one field per external
effect.  An Except.error value models the call throwing or rejecting
with that message. -/
structure RuntimeEnv where
  getSetting : String → Option String
  deriveBTC : Except String (String × String)
  deriveEVM : Except String (String × String)
  signBTC : Except String SignResponse
  signEVM : Except String SignResponse
  composeState : Except String String
  updateState : String → Except String String
  generateObject : Except String ContentObj

/-- The derived-address pair the two-chain provider caches and
returns. -/
structure Addresses where
  btc : String
  evm : String
  deriving DecidableEq

/-- DerivedAddressProvider.getDerivedAddress from the two-chain
source, at one time instant: look up the node-cache entry for this
account's key; any live entry (an object, hence always truthy) is
returned as a hit with no external call.  On a miss the BTC and then
the EVM derivation primitives are called; both results are cached as
one entry expiring 300 seconds later.  The try/catch spans the whole
body, so a failing derivation yields null with no state change. -/
def getDerivedAddress (env : RuntimeEnv) (s : CacheState Addresses) (now : ℤ) :
    ProviderOutcome Addresses :=
  match cacheGet s now with
  | some v => ⟨some v, s, 0, true⟩
  | none =>
    match env.deriveBTC with
    | .error _ => ⟨none, s, 1, false⟩
    | .ok ba =>
      match env.deriveEVM with
      | .error _ => ⟨none, s, 2, false⟩
      | .ok ea =>
        let addrs : Addresses := ⟨ba.1, ea.1⟩
        ⟨some addrs, ⟨some (addrs, now + 300000)⟩, 2, false⟩

/-- walletProvider.get from the two-chain source: a falsy NEAR_ADDRESS
setting throws, which the surrounding catch converts to null; otherwise
a brand-new DerivedAddressProvider (with a brand-new, empty node-cache)
is constructed and its get is awaited.  The provider instance and its
cache are discarded when the call returns. -/
def walletProviderGet (env : RuntimeEnv) (now : ℤ) : ProviderOutcome Addresses :=
  if jsFalsyStr (env.getSetting "NEAR_ADDRESS") then ⟨none, ⟨none⟩, 0, false⟩
  else getDerivedAddress env ⟨none⟩ now

/-- transferBTC from the two-chain source: require truthy NEAR_ADDRESS
and NEAR_WALLET_SECRET_KEY, else throw the configuration error before
any external call; then derive the sending address (first external
call), then sign-and-send (second external call); a response with
success false becomes a thrown error carrying the remote message. -/
def transferBTC (env : RuntimeEnv) : TransferOutcome :=
  if jsFalsyStr (env.getSetting "NEAR_ADDRESS") ||
      jsFalsyStr (env.getSetting "NEAR_WALLET_SECRET_KEY") then
    ⟨.error "NEAR wallet credentials not configured", 0, 0⟩
  else
    match env.deriveBTC with
    | .error e => ⟨.error e, 1, 0⟩
    | .ok _ =>
      match env.signBTC with
      | .error e => ⟨.error e, 1, 1⟩
      | .ok resp =>
        if resp.success then ⟨.ok resp.transactionHash, 1, 1⟩
        else ⟨.error ("Transfer BTC failed with error: " ++ resp.errorMessage), 1, 1⟩

/-- transferEth from the two-chain source, same shape as transferBTC
over the EVM primitives. -/
def transferEth (env : RuntimeEnv) : TransferOutcome :=
  if jsFalsyStr (env.getSetting "NEAR_ADDRESS") ||
      jsFalsyStr (env.getSetting "NEAR_WALLET_SECRET_KEY") then
    ⟨.error "NEAR wallet credentials not configured", 0, 0⟩
  else
    match env.deriveEVM with
    | .error e => ⟨.error e, 1, 0⟩
    | .ok _ =>
      match env.signEVM with
      | .error e => ⟨.error e, 1, 1⟩
      | .ok resp =>
        if resp.success then ⟨.ok resp.transactionHash, 1, 1⟩
        else ⟨.error ("Transfer ETH failed with error: " ++ resp.errorMessage), 1, 1⟩

/-- transfer from the two-chain source: the switch on the symbol
string.  Any symbol other than the two literals throws the
unsupported-symbol error naming it, before any external call. -/
def transfer (env : RuntimeEnv) (symbol : String) : TransferOutcome :=
  if symbol = "BTC" then transferBTC env
  else if symbol = "ETH" then transferEth env
  else ⟨.error ("Unsupported symbol to transfer: " ++ symbol), 0, 0⟩

/-- The invalid-content callback the handler emits when the manual
check fails. -/
def invalidContentCb : CallbackMsg :=
  ⟨"Unable to process transfer request. Invalid content provided.",
    some "Invalid transfer content", none, none, none, none⟩

/-- The success callback: interpolated text plus the structured
payload with success, signature, amount and recipient. -/
def successCb (content : ContentObj) (txHash : String) : CallbackMsg :=
  ⟨"Successfully transferred " ++ jsValToString content.amount ++ " " ++
      jsValToString content.symbol ++ " to " ++ jsValToString content.recipient ++
      "\nTransaction: " ++ txHash,
    none, some true, some txHash, some content.amount, some content.recipient⟩

/-- The catch-branch callback: text interpolating the thrown Error,
payload carrying the error detail. -/
def errorCb (symbol : String) (e : String) : CallbackMsg :=
  ⟨"Error transferring " ++ symbol ++ ": " ++ jsErrorToString e,
    some e, none, none, none, none⟩

/-- The MULTI_CHAIN_TRANSFER_TOKEN action handler from the two-chain
source.  Outside any try/catch it composes or updates state, composes
the prompt context (pure templating, absorbed into the generative
call) and awaits the generative extraction; a throw from any of these
escapes the handler (Except.error).  The manual content check failing
yields the rejection callback and false without touching the
dispatcher.  Only the transfer call sits inside the try/catch: its
throw becomes the error callback and false. -/
def handler (env : RuntimeEnv) (stateArg : Option String) (hasCallback : Bool) :
    HandlerOutcome :=
  match (match stateArg with
         | none => env.composeState
         | some s => env.updateState s) with
  | .error e => ⟨.error e, [], 0, 0, 0⟩
  | .ok _ =>
    match env.generateObject with
    | .error e => ⟨.error e, [], 0, 0, 0⟩
    | .ok content =>
      if isTransferContent content then
        let t := transfer env (jsValToString content.symbol)
        match t.result with
        | .ok txHash =>
          ⟨.ok true, if hasCallback then [successCb content txHash] else [],
            1, t.deriveCalls, t.signCalls⟩
        | .error e =>
          ⟨.ok false,
            if hasCallback then [errorCb (jsValToString content.symbol) e] else [],
            1, t.deriveCalls, t.signCalls⟩
      else
        ⟨.ok false, if hasCallback then [invalidContentCb] else [], 0, 0, 0⟩

end MC

namespace BTCOnly

/-!
Embedding of the single-chain BTC variant: the string-valued
derived-address provider with its node-cache (wallet provider file),
the BITCOIN_CONFIGS table (utils file), and the SEND_BTC action with
its own isTransferContent, transferBTC and handler (transfer action
file).  The shapes mirror the two-chain build; the differences that
matter are the string-typed cache value (so the truthiness test on
the cached value can fail on an empty string) and the absence of a
symbol in the extracted content.
-/

/-- One BITCOIN_CONFIGS entry from the utils file. -/
structure BitcoinCfg where
  nearNetworkId : String
  network : String
  providerUrl : String
  contract : String
  deriving DecidableEq

/-- BITCOIN_CONFIGS from the utils file, indexed by the raw network
string. -/
def BITCOIN_CONFIGS : String → Option BitcoinCfg := fun k =>
  if k = "mainnet" then some ⟨"mainnet", "mainnet", "https://mempool.space/api", "v1.signer"⟩
  else if k = "testnet" then
    some ⟨"testnet", "testnet", "https://mempool.space/testnet4/api", "v1.signer-prod.testnet"⟩
  else none

/-- The object the SEND_BTC extraction delivers, as its typeof-based
check observes it: recipient and amount only. -/
structure BtcContent where
  recipient : JsVal
  amount : JsVal
  deriving DecidableEq

/-- isTransferContent from the single-chain action: recipient must be
a string and amount a string or a number. -/
def isTransferContent (content : BtcContent) : Bool :=
  isStringVal content.recipient &&
    (isStringVal content.amount || isNumberVal content.amount)

/-- The runtime surface the single-chain variant consumes. -/
structure RuntimeEnv where
  getSetting : String → Option String
  deriveBTC : Except String (String × String)
  signBTC : Except String SignResponse
  composeState : Except String String
  updateState : String → Except String String
  generateObject : Except String BtcContent

/-- DerivedAddressProvider.getDerivedAddress from the single-chain
wallet provider: the cached value is a bare address string, and the
source tests it with a plain truthiness check, so a live cached empty
string reads as a miss and triggers a fresh derivation (which then
overwrites the entry).  On a miss the single BTC derivation primitive
is called and the address cached with the 300-second TTL; the
surrounding try/catch turns any failure into null. -/
def getDerivedAddress (env : RuntimeEnv) (s : CacheState String) (now : ℤ) :
    ProviderOutcome String :=
  let cached := cacheGet s now
  if strTruthy cached then ⟨cached, s, 0, true⟩
  else
    match env.deriveBTC with
    | .error _ => ⟨none, s, 1, false⟩
    | .ok ap => ⟨some ap.1, ⟨some (ap.1, now + 300000)⟩, 1, false⟩

/-- walletProvider.get from the single-chain wallet provider: throws
on a falsy NEAR_ADDRESS (converted to null by its catch), otherwise
constructs a brand-new DerivedAddressProvider with an empty cache and
runs it; the cache is discarded with the provider instance. -/
def walletProviderGet (env : RuntimeEnv) (now : ℤ) : ProviderOutcome String :=
  if jsFalsyStr (env.getSetting "NEAR_ADDRESS") then ⟨none, ⟨none⟩, 0, false⟩
  else getDerivedAddress env ⟨none⟩ now

/-- transferBTC from the single-chain action: credentials check with
its own message, then derive, then sign-and-send. -/
def transferBTC (env : RuntimeEnv) : TransferOutcome :=
  if jsFalsyStr (env.getSetting "NEAR_ADDRESS") ||
      jsFalsyStr (env.getSetting "NEAR_WALLET_SECRET_KEY") then
    ⟨.error "BTC wallet credentials not configured", 0, 0⟩
  else
    match env.deriveBTC with
    | .error e => ⟨.error e, 1, 0⟩
    | .ok _ =>
      match env.signBTC with
      | .error e => ⟨.error e, 1, 1⟩
      | .ok resp =>
        if resp.success then ⟨.ok resp.transactionHash, 1, 1⟩
        else ⟨.error ("Transfer BTC failed with error: " ++ resp.errorMessage), 1, 1⟩

/-- The success callback of the SEND_BTC handler. -/
def successCb (content : BtcContent) (txHash : String) : CallbackMsg :=
  ⟨"Successfully transferred " ++ jsValToString content.amount ++ " BTC to " ++
      jsValToString content.recipient ++ "\nTransaction: " ++ txHash,
    none, some true, some txHash, some content.amount, some content.recipient⟩

/-- The catch-branch callback of the SEND_BTC handler. -/
def errorCb (e : String) : CallbackMsg :=
  ⟨"Error transferring BTC: " ++ jsErrorToString e,
    some e, none, none, none, none⟩

/-- The SEND_BTC action handler: state composition, context templating
and the generative extraction run outside the try/catch (their throws
escape); an invalid object yields the rejection callback and false;
only the transferBTC call is guarded, its throw becoming the error
callback and false. -/
def handler (env : RuntimeEnv) (stateArg : Option String) (hasCallback : Bool) :
    HandlerOutcome :=
  match (match stateArg with
         | none => env.composeState
         | some s => env.updateState s) with
  | .error e => ⟨.error e, [], 0, 0, 0⟩
  | .ok _ =>
    match env.generateObject with
    | .error e => ⟨.error e, [], 0, 0, 0⟩
    | .ok content =>
      if isTransferContent content then
        let t := transferBTC env
        match t.result with
        | .ok txHash =>
          ⟨.ok true, if hasCallback then [successCb content txHash] else [],
            1, t.deriveCalls, t.signCalls⟩
        | .error e =>
          ⟨.ok false, if hasCallback then [errorCb e] else [],
            1, t.deriveCalls, t.signCalls⟩
      else
        ⟨.ok false, if hasCallback then [MC.invalidContentCb] else [], 0, 0, 0⟩

end BTCOnly

/-!
Sample environments used by the concrete witnesses and
counterexamples below.
-/

/-- Settings with both credentials present. -/
def sampleSettings : String → Option String := fun k =>
  if k = "NEAR_ADDRESS" then some "alice.near"
  else if k = "NEAR_WALLET_SECRET_KEY" then some "ed25519:sk" else none

/-- Settings with the secret signing key absent. -/
def noSecretSettings : String → Option String := fun k =>
  if k = "NEAR_ADDRESS" then some "alice.near" else none

/-- Settings where every key is absent. -/
def emptySettings : String → Option String := fun _ => none

/-- Settings whose NEAR_NETWORK value is neither mainnet nor testnet. -/
def regtestSettings : String → Option String := fun k =>
  if k = "NEAR_NETWORK" then some "regtest" else none

/-- A two-chain runtime in which every external call succeeds and the
generative call delivers a BTC transfer intent. -/
def sampleEnv : MC.RuntimeEnv :=
  ⟨sampleSettings, .ok ("tb1qsender", "02pk"), .ok ("0xsender", "04pk"),
    .ok ⟨true, "BTCHASH", ""⟩, .ok ⟨true, "ETHHASH", ""⟩,
    .ok "composed", fun s => .ok s,
    .ok ⟨.str "tb1qdest", .str "0.0001", .str "BTC"⟩⟩

/-- A single-chain runtime in which every external call succeeds. -/
def sampleBtcEnv : BTCOnly.RuntimeEnv :=
  ⟨sampleSettings, .ok ("tb1qsender", "02pk"), .ok ⟨true, "BTCHASH", ""⟩,
    .ok "composed", fun s => .ok s, .ok ⟨.str "tb1qdest", .str "0.0001"⟩⟩

/-- A single-chain runtime whose derivation primitive returns the
empty string as the derived address. -/
def emptyAddrBtcEnv : BTCOnly.RuntimeEnv :=
  ⟨sampleSettings, .ok ("", "02pk"), .ok ⟨true, "BTCHASH", ""⟩,
    .ok "composed", fun s => .ok s, .ok ⟨.str "tb1qdest", .str "0.0001"⟩⟩

/-- A two-chain runtime whose generative extraction call throws. -/
def genThrowsEnv : MC.RuntimeEnv :=
  ⟨sampleSettings, .ok ("tb1qsender", "02pk"), .ok ("0xsender", "04pk"),
    .ok ⟨true, "BTCHASH", ""⟩, .ok ⟨true, "ETHHASH", ""⟩,
    .ok "composed", fun s => .ok s,
    .error "Error validating generated object"⟩

/-- A two-chain runtime whose extraction delivers an unsupported
symbol that nevertheless passes the manual type check. -/
def dogeEnv : MC.RuntimeEnv :=
  ⟨sampleSettings, .ok ("tb1qsender", "02pk"), .ok ("0xsender", "04pk"),
    .ok ⟨true, "BTCHASH", ""⟩, .ok ⟨true, "ETHHASH", ""⟩,
    .ok "composed", fun s => .ok s,
    .ok ⟨.str "addr1", .str "1.0", .str "DOGE"⟩⟩

/-- A two-chain runtime whose extraction delivers an object with no
recipient. -/
def noRecipientEnv : MC.RuntimeEnv :=
  ⟨sampleSettings, .ok ("tb1qsender", "02pk"), .ok ("0xsender", "04pk"),
    .ok ⟨true, "BTCHASH", ""⟩, .ok ⟨true, "ETHHASH", ""⟩,
    .ok "composed", fun s => .ok s,
    .ok ⟨.undef, .str "0.0001", .str "BTC"⟩⟩

/-- A two-chain runtime whose BTC sign-and-send call reports failure
with the message "insufficient funds". -/
def insufficientEnv : MC.RuntimeEnv :=
  ⟨sampleSettings, .ok ("tb1qsender", "02pk"), .ok ("0xsender", "04pk"),
    .ok ⟨false, "", "insufficient funds"⟩, .ok ⟨true, "ETHHASH", ""⟩,
    .ok "composed", fun s => .ok s,
    .ok ⟨.str "tb1qdest", .str "0.0001", .str "BTC"⟩⟩

/-- A two-chain runtime whose derivation primitives fail. -/
def deriveFailEnv : MC.RuntimeEnv :=
  ⟨sampleSettings, .error "fetch failed", .error "fetch failed",
    .ok ⟨true, "BTCHASH", ""⟩, .ok ⟨true, "ETHHASH", ""⟩,
    .ok "composed", fun s => .ok s,
    .ok ⟨.str "tb1qdest", .str "0.0001", .str "BTC"⟩⟩

/-- A single-chain runtime whose derivation primitive fails. -/
def deriveFailBtcEnv : BTCOnly.RuntimeEnv :=
  ⟨sampleSettings, .error "fetch failed", .ok ⟨true, "BTCHASH", ""⟩,
    .ok "composed", fun s => .ok s, .ok ⟨.str "tb1qdest", .str "0.0001"⟩⟩

/-- A two-chain runtime with the secret key setting absent. -/
def noSecretEnv : MC.RuntimeEnv :=
  ⟨noSecretSettings, .ok ("tb1qsender", "02pk"), .ok ("0xsender", "04pk"),
    .ok ⟨true, "BTCHASH", ""⟩, .ok ⟨true, "ETHHASH", ""⟩,
    .ok "composed", fun s => .ok s,
    .ok ⟨.str "tb1qdest", .str "0.0001", .str "BTC"⟩⟩

/-- A single-chain runtime with the secret key setting absent. -/
def noSecretBtcEnv : BTCOnly.RuntimeEnv :=
  ⟨noSecretSettings, .ok ("tb1qsender", "02pk"), .ok ⟨true, "BTCHASH", ""⟩,
    .ok "composed", fun s => .ok s, .ok ⟨.str "tb1qdest", .str "0.0001"⟩⟩

/-- C1: the base-unit conversion is claimed to be exact (arbitrary
precision, no floating-point error) for every amount with up to 18
decimal places; the code instead threads the amount through binary64
twice (Number(amount) before parsing, and toNumber() before
rendering).  For the 8-decimal-place amount 9.23046875 ETH the
conversion the dispatcher wires is 9230468750000001024 wei, not the
exact 9.23046875e18 = 9230468750000000000: the product is exactly
representable neither as a binary64 double nor recoverable after the
toNumber() rounding, which lands halfway between two doubles and
rounds to the even mantissa 1024 wei above.  The spec's own example
1.5 ETH happens to survive because 1.5e18 is a representable double. -/
theorem c1_eth_conversion_not_exact :
    MC.evmTransferWireAmount "9.23046875" = some 9230468750000001024 ∧
    MC.specBaseUnitAmount "9.23046875" 18 = some 9230468750000000000 ∧
    (9230468750000001024 : ℤ) ≠ 9230468750000000000 ∧
    MC.evmTransferWireAmount "1.5" = some 1500000000000000000 := by
  refine ⟨by decide, ?_, by decide, by decide⟩
  have h : decimalValue "9.23046875" = some ⟨923046875, 100000000⟩ := by decide
  simp only [MC.specBaseUnitAmount, h, Option.map_some, Frac.toRat, Option.some_inj]
  norm_num

/-- C7: for any symbol other than the literals BTC and ETH the
dispatcher throws the unsupported-symbol error, whose message names
the offending symbol, and makes no derivation and no sign-and-send
call. -/
theorem c7_unsupported_symbol (env : MC.RuntimeEnv) (symbol : String)
    (hbtc : symbol ≠ "BTC") (heth : symbol ≠ "ETH") :
    MC.transfer env symbol =
      ⟨.error ("Unsupported symbol to transfer: " ++ symbol), 0, 0⟩ := by
  simp [MC.transfer, hbtc, heth]

/-- C7 witness: dispatching the symbol DOGE in a fully healthy runtime
throws the unsupported-symbol error naming DOGE with zero external
calls. -/
theorem c7_unsupported_symbol_witness :
    MC.transfer sampleEnv "DOGE" =
      ⟨.error "Unsupported symbol to transfer: DOGE", 0, 0⟩ := by
  rw [c7_unsupported_symbol sampleEnv "DOGE" (by decide) (by decide)]
  decide

/-- C8: when the account identifier setting or the secret signing key
setting is absent, each of the three transfer routines throws its
configuration error with zero derivation calls and zero sign-and-send
calls, i.e. before any network call. -/
theorem c8_missing_credentials (env : MC.RuntimeEnv) (env2 : BTCOnly.RuntimeEnv)
    (h : env.getSetting "NEAR_ADDRESS" = none ∨ env.getSetting "NEAR_WALLET_SECRET_KEY" = none)
    (h2 : env2.getSetting "NEAR_ADDRESS" = none ∨
      env2.getSetting "NEAR_WALLET_SECRET_KEY" = none) :
    MC.transferBTC env = ⟨.error "NEAR wallet credentials not configured", 0, 0⟩ ∧
    MC.transferEth env = ⟨.error "NEAR wallet credentials not configured", 0, 0⟩ ∧
    BTCOnly.transferBTC env2 = ⟨.error "BTC wallet credentials not configured", 0, 0⟩ := by
  have hb : (jsFalsyStr (env.getSetting "NEAR_ADDRESS") ||
      jsFalsyStr (env.getSetting "NEAR_WALLET_SECRET_KEY")) = true := by
    rcases h with h | h <;> simp [h, jsFalsyStr]
  have hb2 : (jsFalsyStr (env2.getSetting "NEAR_ADDRESS") ||
      jsFalsyStr (env2.getSetting "NEAR_WALLET_SECRET_KEY")) = true := by
    rcases h2 with h | h <;> simp [h, jsFalsyStr]
  exact ⟨by simp [MC.transferBTC, hb], by simp [MC.transferEth, hb],
    by simp [BTCOnly.transferBTC, hb2]⟩

/-- C8 witness: with NEAR_WALLET_SECRET_KEY absent, both builds throw
the configuration error with no derivation and no sign-and-send call. -/
theorem c8_missing_credentials_witness :
    MC.transferBTC noSecretEnv = ⟨.error "NEAR wallet credentials not configured", 0, 0⟩ ∧
    BTCOnly.transferBTC noSecretBtcEnv =
      ⟨.error "BTC wallet credentials not configured", 0, 0⟩ := by
  have h := c8_missing_credentials noSecretEnv noSecretBtcEnv
    (Or.inr (by decide)) (Or.inr (by decide))
  exact ⟨h.1, h.2.2⟩

/-- C10 counterexample: with NEAR_NETWORK set to the string regtest,
config resolution still succeeds but attaches no signer contract at
all (the chain-signatures table has no such entry, and spreading the
undefined entry attaches nothing), while the provider URL silently
falls back to the testnet endpoints.  This refutes the claim that for
every settings lookup the fixed signer-contract identifier for the
resolved network is attached. -/
theorem c10_counterexample :
    (MC.getBitcoinConfig regtestSettings).contract = none ∧
    (MC.getBitcoinConfig regtestSettings).nearNetworkId = none ∧
    (MC.getBitcoinConfig regtestSettings).providerUrl = "https://mempool.space/testnet4/api" ∧
    (MC.getEvmConfig regtestSettings).contract = none := by
  decide

/-- C10 amended: config resolution is total and, whenever NEAR_NETWORK
is unset or one of mainnet/testnet, it behaves as claimed: the profile
defaults to testnet when unset, the provider URL falls back to the
fixed per-chain per-network default when its setting is absent, and
the fixed signer contract for the resolved profile is attached.  For
any other NEAR_NETWORK value resolution still does not fail but
attaches no signer contract. -/
theorem c10_config_defaults (settings : String → Option String)
    (h : settings "NEAR_NETWORK" = none ∨ settings "NEAR_NETWORK" = some "mainnet" ∨
      settings "NEAR_NETWORK" = some "testnet") :
    (MC.getBitcoinConfig settings).nearNetworkId =
      some ((settings "NEAR_NETWORK").getD "testnet") ∧
    (MC.getEvmConfig settings).nearNetworkId =
      some ((settings "NEAR_NETWORK").getD "testnet") ∧
    (MC.getBitcoinConfig settings).contract =
      some (if (settings "NEAR_NETWORK").getD "testnet" = "mainnet" then "v1.signer"
            else "v1.signer-prod.testnet") ∧
    (MC.getEvmConfig settings).contract =
      some (if (settings "NEAR_NETWORK").getD "testnet" = "mainnet" then "v1.signer"
            else "v1.signer-prod.testnet") ∧
    (settings "BTC_PROVIDER_URL" = none →
      (MC.getBitcoinConfig settings).providerUrl =
        (if (settings "NEAR_NETWORK").getD "testnet" = "mainnet" then
          "https://mempool.space/api" else "https://mempool.space/testnet4/api")) ∧
    (settings "EVM_PROVIDER_URL" = none →
      (MC.getEvmConfig settings).providerUrl = "https://sepolia.drpc.org") ∧
    (settings "BTC_NETWORK" = none → (MC.getBitcoinConfig settings).network = "testnet") := by
  rcases h with h | h | h <;>
    refine ⟨?_, ?_, ?_, ?_, ?_, ?_, ?_⟩ <;>
    first
      | (intro hx
         simp [MC.getBitcoinConfig, MC.getEvmConfig, MC.CHAIN_SIGNATURES_CONFIG,
           MC.MEMPOOL_API_URL, h, hx])
      | simp [MC.getBitcoinConfig, MC.getEvmConfig, MC.CHAIN_SIGNATURES_CONFIG,
          MC.MEMPOOL_API_URL, h]

/-- C10 witness: with every setting absent, resolution yields the
testnet profile, the fixed default endpoints for both chains, and the
testnet signer contract. -/
theorem c10_config_defaults_witness :
    (MC.getBitcoinConfig emptySettings).contract = some "v1.signer-prod.testnet" ∧
    (MC.getBitcoinConfig emptySettings).providerUrl = "https://mempool.space/testnet4/api" ∧
    (MC.getBitcoinConfig emptySettings).network = "testnet" ∧
    (MC.getEvmConfig emptySettings).providerUrl = "https://sepolia.drpc.org" := by
  have h := c10_config_defaults emptySettings (Or.inl rfl)
  refine ⟨h.2.2.1.trans (by decide), (h.2.2.2.2.1 rfl).trans (by decide),
    h.2.2.2.2.2.2 rfl, h.2.2.2.2.2.1 rfl⟩

/-- Helper: a provider run on an empty cache never hits, and returns a
value only after at least one derivation call. -/
theorem mcEmptyCacheRun (env : MC.RuntimeEnv) (now : ℤ) :
    (MC.getDerivedAddress env ⟨none⟩ now).cacheHit = false ∧
    ((MC.getDerivedAddress env ⟨none⟩ now).result ≠ none →
      1 ≤ (MC.getDerivedAddress env ⟨none⟩ now).deriveCalls) := by
  rcases hb : env.deriveBTC with e | ba <;> rcases he : env.deriveEVM with e2 | ea <;>
    simp [MC.getDerivedAddress, cacheGet, hb, he]

/-- Helper: same for the single-chain provider. -/
theorem btcEmptyCacheRun (env : BTCOnly.RuntimeEnv) (now : ℤ) :
    (BTCOnly.getDerivedAddress env ⟨none⟩ now).cacheHit = false ∧
    ((BTCOnly.getDerivedAddress env ⟨none⟩ now).result ≠ none →
      1 ≤ (BTCOnly.getDerivedAddress env ⟨none⟩ now).deriveCalls) := by
  rcases hb : env.deriveBTC with e | ap <;>
    simp [BTCOnly.getDerivedAddress, cacheGet, strTruthy, hb]

/-- C4: every call through the exported walletProvider.get (in either
build) runs on a brand-new empty cache: the call never observes a
cache hit, equals a provider run on the empty cache whenever the
account setting is truthy, and returns an address only by performing
the external derivation anew — so across any sequence of provider
calls, no 300-second TTL is ever observable. -/
theorem c4_provider_never_caches (env : MC.RuntimeEnv) (env2 : BTCOnly.RuntimeEnv)
    (now now2 : ℤ) :
    (MC.walletProviderGet env now).cacheHit = false ∧
    (BTCOnly.walletProviderGet env2 now2).cacheHit = false ∧
    (jsFalsyStr (env.getSetting "NEAR_ADDRESS") = false →
      MC.walletProviderGet env now = MC.getDerivedAddress env ⟨none⟩ now) ∧
    (jsFalsyStr (env2.getSetting "NEAR_ADDRESS") = false →
      BTCOnly.walletProviderGet env2 now2 = BTCOnly.getDerivedAddress env2 ⟨none⟩ now2) ∧
    ((MC.walletProviderGet env now).result ≠ none →
      1 ≤ (MC.walletProviderGet env now).deriveCalls) ∧
    ((BTCOnly.walletProviderGet env2 now2).result ≠ none →
      1 ≤ (BTCOnly.walletProviderGet env2 now2).deriveCalls) := by
  rcases hf : jsFalsyStr (env.getSetting "NEAR_ADDRESS") <;>
    rcases hf2 : jsFalsyStr (env2.getSetting "NEAR_ADDRESS") <;>
    refine ⟨?_, ?_, ?_, ?_, ?_, ?_⟩ <;>
    (simp only [MC.walletProviderGet, BTCOnly.walletProviderGet, hf, hf2]
     first
       | exact (mcEmptyCacheRun env now).2
       | exact (btcEmptyCacheRun env2 now2).2
       | exact (mcEmptyCacheRun env now).1
       | exact (btcEmptyCacheRun env2 now2).1
       | simp)

/-- C4 witness: a healthy concrete run through the exported provider
interface performs the derivations (two calls, one per chain kind) and
observes no cache hit. -/
theorem c4_provider_never_caches_witness :
    (MC.walletProviderGet sampleEnv 0).cacheHit = false ∧
    1 ≤ (MC.walletProviderGet sampleEnv 0).deriveCalls := by
  have h := c4_provider_never_caches sampleEnv sampleBtcEnv 0 0
  exact ⟨h.1, h.2.2.2.2.1 (by decide)⟩

/-- C6: inside getDerivedAddress a failing external derivation call is
swallowed: on a cache miss, a BTC derivation failure (or an EVM
failure after a successful BTC derivation in the two-chain build, or
the single BTC failure in the single-chain build) makes the provider
return null with the cache unchanged; the embedding of the
try/catch-wrapped body is total, so no exception crosses the provider
boundary. -/
theorem c6_derivation_failure_yields_null (env : MC.RuntimeEnv) (env2 : BTCOnly.RuntimeEnv)
    (s : CacheState MC.Addresses) (s2 : CacheState String) (now now2 : ℤ) (e : String) :
    (cacheGet s now = none → env.deriveBTC = .error e →
      MC.getDerivedAddress env s now = ⟨none, s, 1, false⟩) ∧
    (cacheGet s now = none → ∀ ba, env.deriveBTC = .ok ba → env.deriveEVM = .error e →
      MC.getDerivedAddress env s now = ⟨none, s, 2, false⟩) ∧
    (strTruthy (cacheGet s2 now2) = false → env2.deriveBTC = .error e →
      BTCOnly.getDerivedAddress env2 s2 now2 = ⟨none, s2, 1, false⟩) := by
  refine ⟨fun hc hb => ?_, fun hc ba hb he => ?_, fun hc hb => ?_⟩
  · simp [MC.getDerivedAddress, hc, hb]
  · simp [MC.getDerivedAddress, hc, hb, he]
  · simp [BTCOnly.getDerivedAddress, hc, hb]

/-- C6 witness: with both derivation primitives failing with a network
error and an empty cache, both providers return null, make exactly the
failing call, and leave the cache unchanged. -/
theorem c6_derivation_failure_yields_null_witness :
    MC.getDerivedAddress deriveFailEnv ⟨none⟩ 0 = ⟨none, ⟨none⟩, 1, false⟩ ∧
    BTCOnly.getDerivedAddress deriveFailBtcEnv ⟨none⟩ 0 = ⟨none, ⟨none⟩, 1, false⟩ := by
  have h := c6_derivation_failure_yields_null deriveFailEnv deriveFailBtcEnv
    ⟨none⟩ ⟨none⟩ 0 0 "fetch failed"
  exact ⟨h.1 rfl rfl, h.2.2 rfl rfl⟩

/-- Helper: in the two-chain provider, a run that did not hit the
cache and returned a value must have derived both addresses and
cached them with expiry now + 300000 ms. -/
theorem mcMissSuccessRun (env : MC.RuntimeEnv) (s : CacheState MC.Addresses) (now : ℤ)
    (v : MC.Addresses) (hmiss : (MC.getDerivedAddress env s now).cacheHit = false)
    (hres : (MC.getDerivedAddress env s now).result = some v) :
    MC.getDerivedAddress env s now = ⟨some v, ⟨some (v, now + 300000)⟩, 2, false⟩ := by
  rcases hc : cacheGet s now with _ | w
  · rcases hb : env.deriveBTC with e | ba
    · simp [MC.getDerivedAddress, hc, hb] at hres
    · rcases he : env.deriveEVM with e2 | ea
      · simp [MC.getDerivedAddress, hc, hb, he] at hres
      · simp only [MC.getDerivedAddress, hc, hb, he] at hres ⊢
        simp at hres
        rw [← hres]
  · simp [MC.getDerivedAddress, hc] at hmiss

/-- Helper: a live two-chain cache entry within its expiry is returned
as a hit with no external call and no state change. -/
theorem mcHitRun (env : MC.RuntimeEnv) (v : MC.Addresses) (exp t : ℤ) (ht : t ≤ exp) :
    MC.getDerivedAddress env ⟨some (v, exp)⟩ t = ⟨some v, ⟨some (v, exp)⟩, 0, true⟩ := by
  simp [MC.getDerivedAddress, cacheGet, ht]

/-- Helper: in the single-chain provider, a non-hit run that returned
a value derived it and cached it with expiry now + 300000 ms. -/
theorem btcMissSuccessRun (env : BTCOnly.RuntimeEnv) (s : CacheState String) (now : ℤ)
    (v : String) (hmiss : (BTCOnly.getDerivedAddress env s now).cacheHit = false)
    (hres : (BTCOnly.getDerivedAddress env s now).result = some v) :
    BTCOnly.getDerivedAddress env s now = ⟨some v, ⟨some (v, now + 300000)⟩, 1, false⟩ := by
  rcases ht : strTruthy (cacheGet s now)
  · rcases hb : env.deriveBTC with e | ap
    · simp [BTCOnly.getDerivedAddress, ht, hb] at hres
    · simp only [BTCOnly.getDerivedAddress, ht, hb] at hres ⊢
      simp at hres
      rw [← hres]
      simp
  · simp [BTCOnly.getDerivedAddress, ht] at hmiss

/-- Helper: a live nonempty single-chain cache entry within its expiry
is a hit. -/
theorem btcHitRun (env : BTCOnly.RuntimeEnv) (v : String) (exp t : ℤ)
    (ht : t ≤ exp) (hv : v ≠ "") :
    BTCOnly.getDerivedAddress env ⟨some (v, exp)⟩ t = ⟨some v, ⟨some (v, exp)⟩, 0, true⟩ := by
  simp [BTCOnly.getDerivedAddress, cacheGet, strTruthy, ht, hv]

/-- C3 counterexample: in the single-chain variant, when the external
derivation yields the empty string the first getDerivedAddress call
succeeds (returns the address and caches it for 300 seconds), yet a
second call on the same provider one millisecond later re-runs the
external derivation (deriveCalls = 1, no cache hit), because the
source tests the cached value for truthiness and an empty cached
string reads as a miss.  This refutes the claim as universally
stated. -/
theorem c3_counterexample :
    (BTCOnly.getDerivedAddress emptyAddrBtcEnv ⟨none⟩ 0).result = some "" ∧
    (BTCOnly.getDerivedAddress emptyAddrBtcEnv ⟨none⟩ 0).state = ⟨some ("", 300000)⟩ ∧
    (BTCOnly.getDerivedAddress emptyAddrBtcEnv
      (BTCOnly.getDerivedAddress emptyAddrBtcEnv ⟨none⟩ 0).state 1).deriveCalls = 1 ∧
    (BTCOnly.getDerivedAddress emptyAddrBtcEnv
      (BTCOnly.getDerivedAddress emptyAddrBtcEnv ⟨none⟩ 0).state 1).cacheHit = false := by
  decide

/-- C3 amended: after a getDerivedAddress call that performed the
derivation and succeeded, any second call on the same provider within
300 seconds of the caching instant returns the identical cached
address with zero external derivation calls — unconditionally in the
two-chain build, whose cached value is an always-truthy object, and
provided the derived address string is nonempty in the single-chain
build, whose truthiness test treats a cached empty string as a miss. -/
theorem c3_cache_hit_within_ttl :
    (∀ (env : MC.RuntimeEnv) (s : CacheState MC.Addresses) (t1 t2 : ℤ) (v : MC.Addresses),
      (MC.getDerivedAddress env s t1).cacheHit = false →
      (MC.getDerivedAddress env s t1).result = some v →
      t2 ≤ t1 + 300000 →
      MC.getDerivedAddress env (MC.getDerivedAddress env s t1).state t2 =
        ⟨some v, (MC.getDerivedAddress env s t1).state, 0, true⟩) ∧
    (∀ (env : BTCOnly.RuntimeEnv) (s : CacheState String) (t1 t2 : ℤ) (v : String),
      (BTCOnly.getDerivedAddress env s t1).cacheHit = false →
      (BTCOnly.getDerivedAddress env s t1).result = some v →
      v ≠ "" →
      t2 ≤ t1 + 300000 →
      BTCOnly.getDerivedAddress env (BTCOnly.getDerivedAddress env s t1).state t2 =
        ⟨some v, (BTCOnly.getDerivedAddress env s t1).state, 0, true⟩) := by
  constructor
  · intro env s t1 t2 v hmiss hres ht
    rw [mcMissSuccessRun env s t1 v hmiss hres]
    exact mcHitRun env v (t1 + 300000) t2 ht
  · intro env s t1 t2 v hmiss hres hv ht
    rw [btcMissSuccessRun env s t1 v hmiss hres]
    exact btcHitRun env v (t1 + 300000) t2 ht hv

/-- C3 witness: a healthy concrete run of each provider, followed
200 seconds later by a second call, returns the identical cached
address as a pure cache hit with zero derivation calls. -/
theorem c3_cache_hit_within_ttl_witness :
    MC.getDerivedAddress sampleEnv (MC.getDerivedAddress sampleEnv ⟨none⟩ 0).state 200000 =
      ⟨some ⟨"tb1qsender", "0xsender"⟩,
        ⟨some (⟨"tb1qsender", "0xsender"⟩, 300000)⟩, 0, true⟩ ∧
    BTCOnly.getDerivedAddress sampleBtcEnv
        (BTCOnly.getDerivedAddress sampleBtcEnv ⟨none⟩ 0).state 200000 =
      ⟨some "tb1qsender", ⟨some ("tb1qsender", 300000)⟩, 0, true⟩ := by
  constructor
  · have h := c3_cache_hit_within_ttl.1 sampleEnv ⟨none⟩ 0 200000
      ⟨"tb1qsender", "0xsender"⟩ (by decide) (by decide) (by decide)
    exact h.trans (by decide)
  · have h := c3_cache_hit_within_ttl.2 sampleBtcEnv ⟨none⟩ 0 200000
      "tb1qsender" (by decide) (by decide) (by decide) (by decide)
    exact h.trans (by decide)

/-- C2 counterexample: when the generative extraction call throws (for
instance on schema validation failure), the thrown error escapes the
action handler unconverted — the try/catch in the source begins only
after state composition, context composition and the generation call —
and no callback is emitted at all.  This refutes the claim that every
failure arising anywhere during handling is caught inside the handler
and converted into a negative terminal response. -/
theorem c2_counterexample :
    (MC.handler genThrowsEnv none true).result = .error "Error validating generated object" ∧
    (MC.handler genThrowsEnv none true).callbacks = [] := by
  decide

/-- C2 amended: failures of the dispatch step (and the manual
validation rejection) are caught at the handler boundary, in both
builds: whenever state composition and the generative call themselves
succeed, the handler never raises; a content object failing the
manual check yields return false plus the fixed rejection callback
(structured error, dispatcher untouched); and a dispatch throw with
message e yields return false plus exactly one callback — the error
callback, whose structured payload carries e.  Errors thrown by state
composition or by the generation call, by contrast, propagate out of
the handler (see the matching counterexample). -/
theorem c2_handler_catches_dispatch_failures :
    (∀ (env : MC.RuntimeEnv) (stateArg : Option String) (cb : Bool) (st : String)
        (content : MC.ContentObj),
      (match stateArg with
       | none => env.composeState
       | some s => env.updateState s) = .ok st →
      env.generateObject = .ok content →
      (∃ b, (MC.handler env stateArg cb).result = .ok b) ∧
      (MC.isTransferContent content = false →
        MC.handler env stateArg true = ⟨.ok false, [MC.invalidContentCb], 0, 0, 0⟩) ∧
      (∀ e, MC.isTransferContent content = true →
        (MC.transfer env (jsValToString content.symbol)).result = .error e →
        MC.handler env stateArg true =
          ⟨.ok false, [MC.errorCb (jsValToString content.symbol) e], 1,
            (MC.transfer env (jsValToString content.symbol)).deriveCalls,
            (MC.transfer env (jsValToString content.symbol)).signCalls⟩)) ∧
    (∀ (env : BTCOnly.RuntimeEnv) (stateArg : Option String) (cb : Bool) (st : String)
        (content : BTCOnly.BtcContent),
      (match stateArg with
       | none => env.composeState
       | some s => env.updateState s) = .ok st →
      env.generateObject = .ok content →
      (∃ b, (BTCOnly.handler env stateArg cb).result = .ok b) ∧
      (BTCOnly.isTransferContent content = false →
        BTCOnly.handler env stateArg true = ⟨.ok false, [MC.invalidContentCb], 0, 0, 0⟩) ∧
      (∀ e, BTCOnly.isTransferContent content = true →
        (BTCOnly.transferBTC env).result = .error e →
        BTCOnly.handler env stateArg true =
          ⟨.ok false, [BTCOnly.errorCb e], 1,
            (BTCOnly.transferBTC env).deriveCalls,
            (BTCOnly.transferBTC env).signCalls⟩)) := by
  constructor
  · intro env stateArg cb st content hst hgen
    refine ⟨?_, ?_, ?_⟩
    · simp only [MC.handler, hst, hgen]
      rcases hic : MC.isTransferContent content
      · exact ⟨false, by simp [hic]⟩
      · rcases htr : (MC.transfer env (jsValToString content.symbol)).result with e | h
        · exact ⟨false, by simp [hic, htr]⟩
        · exact ⟨true, by simp [hic, htr]⟩
    · intro hic
      simp [MC.handler, hst, hgen, hic]
    · intro e hic htr
      simp only [MC.handler, hst, hgen]
      simp [hic, htr]
  · intro env stateArg cb st content hst hgen
    refine ⟨?_, ?_, ?_⟩
    · simp only [BTCOnly.handler, hst, hgen]
      rcases hic : BTCOnly.isTransferContent content
      · exact ⟨false, by simp [hic]⟩
      · rcases htr : (BTCOnly.transferBTC env).result with e | h
        · exact ⟨false, by simp [hic, htr]⟩
        · exact ⟨true, by simp [hic, htr]⟩
    · intro hic
      simp [BTCOnly.handler, hst, hgen, hic]
    · intro e hic htr
      simp only [BTCOnly.handler, hst, hgen]
      simp [hic, htr]

/-- C2 witness: a dispatch failure (the BTC derivation call throwing
"fetch failed") is converted into return false plus the single error
callback carrying that message in its structured payload, and a
validation failure (missing recipient) is converted into return false
plus the fixed rejection callback with the dispatcher untouched. -/
theorem c2_handler_catches_dispatch_failures_witness :
    MC.handler deriveFailEnv none true =
      ⟨.ok false, [MC.errorCb "BTC" "fetch failed"], 1, 1, 0⟩ ∧
    MC.handler noRecipientEnv none true = ⟨.ok false, [MC.invalidContentCb], 0, 0, 0⟩ := by
  constructor
  · have h := (c2_handler_catches_dispatch_failures.1 deriveFailEnv none true "composed"
      ⟨.str "tb1qdest", .str "0.0001", .str "BTC"⟩ rfl rfl).2.2 "fetch failed"
      (by decide) (by decide)
    exact h.trans (by decide)
  · exact (c2_handler_catches_dispatch_failures.1 noRecipientEnv none true "composed"
      ⟨.undef, .str "0.0001", .str "BTC"⟩ rfl rfl).2.1 (by decide)

/-- C5 counterexample: the object with symbol DOGE (recipient and
amount well-typed) passes the manual type check — which only requires
symbol to be a string, not one of the supported enum values — and the
handler does invoke the dispatcher on it (dispatchCalls = 1); the
rejection the user sees comes from the dispatcher's
unsupported-symbol throw, not from the manual check.  This refutes
the claim that the manual check requires symbol to be BTC or ETH and
that the handler never invokes the dispatcher otherwise. -/
theorem c5_counterexample :
    MC.isTransferContent ⟨.str "addr1", .str "1.0", .str "DOGE"⟩ = true ∧
    (MC.handler dogeEnv none true).dispatchCalls = 1 ∧
    (MC.handler dogeEnv none true).result = .ok false ∧
    (MC.handler dogeEnv none true).callbacks =
      [⟨"Error transferring DOGE: Error: Unsupported symbol to transfer: DOGE",
        some "Unsupported symbol to transfer: DOGE", none, none, none, none⟩] := by
  decide

/-- C5 amended: the manual check passes exactly when recipient is a
string, amount is a string or a number, and symbol is present and a
string (any string); the handler dispatches exactly the objects that
pass it — an object failing the check gets the fixed rejection
callback with the structured error and the dispatcher is never
invoked, and an object passing it is dispatched (enum enforcement is
left to the generation schema and to the dispatcher's
unsupported-symbol error). -/
theorem c5_manual_check_gates_dispatch :
    (∀ content : MC.ContentObj,
      MC.isTransferContent content = true ↔
        ((∃ r, content.recipient = .str r) ∧
          ((∃ a, content.amount = .str a) ∨ (∃ q, content.amount = .num q)) ∧
          (∃ sy, content.symbol = .str sy))) ∧
    (∀ (env : MC.RuntimeEnv) (stateArg : Option String) (st : String)
        (content : MC.ContentObj),
      (match stateArg with
       | none => env.composeState
       | some s => env.updateState s) = .ok st →
      env.generateObject = .ok content →
      (MC.isTransferContent content = false →
        MC.handler env stateArg true = ⟨.ok false, [MC.invalidContentCb], 0, 0, 0⟩) ∧
      (MC.isTransferContent content = true →
        (MC.handler env stateArg true).dispatchCalls = 1)) := by
  constructor
  · intro content
    rcases content with ⟨r, a, sy⟩
    rcases r <;> rcases a <;> rcases sy <;>
      simp [MC.isTransferContent, isStringVal, isNumberVal]
  · intro env stateArg st content hst hgen
    constructor
    · intro hic
      simp [MC.handler, hst, hgen, hic]
    · intro hic
      simp only [MC.handler, hst, hgen]
      rcases htr : (MC.transfer env (jsValToString content.symbol)).result with e | h <;>
        simp [hic, htr]

/-- C5 witness: an extracted object with no recipient fails the manual
check; the handler emits the fixed rejection callback with the
structured error and never invokes the dispatcher. -/
theorem c5_manual_check_gates_dispatch_witness :
    MC.isTransferContent ⟨.undef, .str "0.0001", .str "BTC"⟩ = false ∧
    MC.handler noRecipientEnv none true = ⟨.ok false, [MC.invalidContentCb], 0, 0, 0⟩ :=
  ⟨by decide,
    (c5_manual_check_gates_dispatch.2 noRecipientEnv none "composed"
      ⟨.undef, .str "0.0001", .str "BTC"⟩ rfl rfl).1 (by decide)⟩

/-- C9: whenever the BTC sign-and-send call resolves with success
false and an error message m (with credentials present, the
derivation succeeding, and the extraction having produced a
well-typed BTC intent), the handler returns false and emits exactly
one callback: the error callback, whose text is a fixed prefix
followed by m and whose structured payload carries the thrown error
detail; no success payload is ever produced. -/
theorem c9_signer_failure_reported (env : MC.RuntimeEnv) (stateArg : Option String)
    (st r a hsh m : String) (ba : String × String)
    (hst : (match stateArg with
            | none => env.composeState
            | some s => env.updateState s) = .ok st)
    (hgen : env.generateObject = .ok ⟨.str r, .str a, .str "BTC"⟩)
    (haddr : jsFalsyStr (env.getSetting "NEAR_ADDRESS") = false)
    (hsk : jsFalsyStr (env.getSetting "NEAR_WALLET_SECRET_KEY") = false)
    (hd : env.deriveBTC = .ok ba)
    (hs : env.signBTC = .ok ⟨false, hsh, m⟩) :
    MC.handler env stateArg true =
      ⟨.ok false,
        [⟨"Error transferring BTC: Error: Transfer BTC failed with error: " ++ m,
          some ("Transfer BTC failed with error: " ++ m), none, none, none, none⟩],
        1, 1, 1⟩ := by
  have htr : MC.transfer env "BTC" =
      ⟨.error ("Transfer BTC failed with error: " ++ m), 1, 1⟩ := by
    simp [MC.transfer, MC.transferBTC, haddr, hsk, hd, hs]
  have hic : MC.isTransferContent ⟨.str r, .str a, .str "BTC"⟩ = true := by
    simp [MC.isTransferContent, isStringVal]
  simp only [MC.handler, hst, hgen, hic, if_true, jsValToString, htr]
  simp [MC.errorCb, jsErrorToString, ← String.append_assoc]

/-- C9 witness: a simulated signer response with success false and
errorMessage "insufficient funds" yields a false return and a single
error callback whose text contains "insufficient funds". -/
theorem c9_signer_failure_reported_witness :
    MC.handler insufficientEnv none true =
      ⟨.ok false,
        [⟨"Error transferring BTC: Error: Transfer BTC failed with error: insufficient funds",
          some "Transfer BTC failed with error: insufficient funds",
          none, none, none, none⟩],
        1, 1, 1⟩ := by
  have h := c9_signer_failure_reported insufficientEnv none "composed"
    "tb1qdest" "0.0001" "" "insufficient funds" ("tb1qsender", "02pk")
    rfl rfl (by decide) (by decide) rfl rfl
  exact h.trans (by decide)
